import Mathlib

/-!
Formal model of `life_analysis_app3.py`, the "How Are You Spending Your Life?"
allocation calculator.  The computation section of the script (lines 96-143)
is embedded as pure functions over exact rationals: activity inputs are the
list of the 12 daily-hour values in the insertion order of the `categories`
dict, and the lifespan is a natural number (the slider yields an integer).
Python's float division raises `ZeroDivisionError` when the denominator is
zero; that failure is modelled by `Option` (`none` = the script raises).
Python's `sorted` is a stable sort; it is modelled by the stable
`List.insertionSort` (a stable sort's output is uniquely determined by the
comparison, so any stable sort is a faithful model).
-/

namespace LifeAnalysis

/-- Display names of the 12 activity categories, in the insertion order of the
`categories` dict of the source (lines 52-65). -/
def categories : List String :=
  ["Sleeping", "Working", "Commuting", "Household Chores", "Eating and Drinking",
   "Leisure", "Free SELF Time", "Caring for Others", "Education",
   "Religious and Civic Activities", "Shopping/Errands", "Miscellaneous Activities"]

/-- The `lifespan` entry of the `DEFAULTS` dict (line 6). -/
def DEFAULTS_lifespan : ℕ := 77

/-- The 12 activity entries of the `DEFAULTS` dict (lines 7-18), in dict order
(sleep, work, commute, chores, meals, leisure, free_self, care_others,
education, religion, shopping, misc), which is also the order of `categories`. -/
def DEFAULTS_hours : List ℚ :=
  [8.5, 7.5, 0.5, 1.5, 1.5, 2, 1, 0.25, 0.25, 0.25, 0.25, 0.25]

/-- Line 96: `daily_hours = sum(activity_inputs.values())`. -/
def daily_hours (activity_inputs : List ℚ) : ℚ := activity_inputs.sum

/-- Line 97: `remaining_hours = 24 - daily_hours`. -/
def remaining_hours (activity_inputs : List ℚ) : ℚ := 24 - daily_hours activity_inputs

/-- Line 107: `total_hours = daily_hours * 365 * lifespan`. -/
def total_hours (lifespan : ℕ) (activity_inputs : List ℚ) : ℚ :=
  daily_hours activity_inputs * 365 * (lifespan : ℚ)

/-- Line 108: `activities = {category: activity_inputs[key] for category, key in categories.items()}` —
the pairing of each display name with its input value, in dict insertion order. -/
def activities (activity_inputs : List ℚ) : List (String × ℚ) :=
  categories.zip activity_inputs

/-- Line 109: `hours_per_activity = {activity: hours * 365 * lifespan ...}`. -/
def hours_per_activity (lifespan : ℕ) (activity_inputs : List ℚ) : List (String × ℚ) :=
  (activities activity_inputs).map (fun p => (p.1, p.2 * 365 * (lifespan : ℚ)))

/-- Line 110: `years_per_activity = {activity: hours / 24 / 365 ...}`. -/
def years_per_activity (lifespan : ℕ) (activity_inputs : List ℚ) : List (String × ℚ) :=
  (hours_per_activity lifespan activity_inputs).map (fun p => (p.1, p.2 / 24 / 365))

/-- Line 111: `proportions = {activity: (hours / total_hours) * 100 ...}`.
In Python, `hours / total_hours` raises `ZeroDivisionError` when
`total_hours == 0`; the raise is modelled by `none`. -/
def proportions (lifespan : ℕ) (activity_inputs : List ℚ) : Option (List (String × ℚ)) :=
  if total_hours lifespan activity_inputs = 0 then none
  else some ((hours_per_activity lifespan activity_inputs).map
    (fun p => (p.1, p.2 / total_hours lifespan activity_inputs * 100)))

/-- The comparison used on line 114: `sorted(proportions.items(), key=lambda x: x[1], reverse=True)`
orders pairs by descending second component, keeping the original order of ties. -/
def descBySnd (a b : String × ℚ) : Prop := b.2 ≤ a.2

instance : DecidableRel descBySnd := fun a b => inferInstanceAs (Decidable (b.2 ≤ a.2))

instance : IsTotal (String × ℚ) descBySnd := ⟨fun a b => le_total b.2 a.2⟩

instance : IsTrans (String × ℚ) descBySnd := ⟨fun _ _ _ h1 h2 => le_trans h2 h1⟩

/-- Line 114: `sorted_activities = sorted(proportions.items(), key=lambda x: x[1], reverse=True)`,
a stable sort by percentage descending (modelled by the stable `insertionSort`).
`none` when the script already raised at line 111. -/
def sorted_activities (lifespan : ℕ) (activity_inputs : List ℚ) : Option (List (String × ℚ)) :=
  (proportions lifespan activity_inputs).map (List.insertionSort descBySnd)

/-- Line 143: `free_years = remaining_hours * 365 * lifespan / 24 / 365`. -/
def free_years (lifespan : ℕ) (activity_inputs : List ℚ) : ℚ :=
  remaining_hours activity_inputs * 365 * (lifespan : ℚ) / 24 / 365

/-- Lines 100-103: the two placeholders at the top always display the daily
total and the remaining hours, whatever branch follows. -/
def shown_totals (activity_inputs : List ℚ) : ℚ × ℚ :=
  (daily_hours activity_inputs, remaining_hours activity_inputs)

/-- The data rendered inside the `daily_hours <= 24` branch (lines 106-145):
sorted labels, percentages and years (lines 115-117) and the free-time figure
(line 143). -/
structure BreakdownView where
  sorted_labels : List String
  sorted_percentages : List ℚ
  sorted_years : List ℚ
  freeYears : ℚ

/-- Outcome of the conditional part of the script (lines 106-149):
`overBudget` when `daily_hours > 24` (the branch is skipped and no breakdown,
chart, table or free-time section is rendered); `crashed` when the branch is
entered but line 111 raises `ZeroDivisionError`; otherwise the rendered view. -/
inductive BranchResult where
  | overBudget : BranchResult
  | crashed : BranchResult
  | rendered : BreakdownView → BranchResult

/-- The whole conditional (line 106 `if daily_hours <= 24:` and its body).
Line 117 looks each sorted activity up in the `years_per_activity` dict;
the lookup never misses, `getD 0` only mirrors the total dict access. -/
def run (lifespan : ℕ) (activity_inputs : List ℚ) : BranchResult :=
  if daily_hours activity_inputs ≤ 24 then
    match sorted_activities lifespan activity_inputs with
    | none => .crashed
    | some s =>
        .rendered
          { sorted_labels := s.map Prod.fst
            sorted_percentages := s.map Prod.snd
            sorted_years :=
              s.map (fun p => ((years_per_activity lifespan activity_inputs).lookup p.1).getD 0)
            freeYears := free_years lifespan activity_inputs }
  else .overBudget

/-- The all-zero input: every slider and dropdown set to 0. -/
def zero_inputs : List ℚ := List.replicate 12 0

/-- An over-budget input: 13 h working and 12 h sleeping, 25 h in total. -/
def over_inputs : List ℚ := [13, 12, 0, 0, 0, 0, 0, 0, 0, 0, 0, 0]

/-! ### Helper lemmas -/

theorem categories_length : categories.length = 12 := rfl

theorem daily_hours_zero_inputs : daily_hours zero_inputs = 0 := by
  simp [daily_hours, zero_inputs]

theorem total_hours_ne_zero {lifespan : ℕ} {activity_inputs : List ℚ}
    (hL : 0 < lifespan) (hpos : 0 < daily_hours activity_inputs) :
    total_hours lifespan activity_inputs ≠ 0 := by
  have hLq : (0 : ℚ) < (lifespan : ℚ) := by exact_mod_cast hL
  have : (0 : ℚ) < daily_hours activity_inputs * 365 * (lifespan : ℚ) := by positivity
  exact ne_of_gt this

/-- When the daily total and the lifespan are positive, the `365 * lifespan`
factors in numerator and denominator of line 111 cancel: the percentage of an
activity is `hours / daily_hours * 100`, independently of the lifespan. -/
theorem proportions_canonical {lifespan : ℕ} {activity_inputs : List ℚ}
    (hL : 0 < lifespan) (hpos : 0 < daily_hours activity_inputs) :
    proportions lifespan activity_inputs =
      some ((activities activity_inputs).map
        (fun p => (p.1, p.2 / daily_hours activity_inputs * 100))) := by
  rw [proportions, if_neg (total_hours_ne_zero hL hpos)]
  rw [hours_per_activity, List.map_map]
  congr 1
  apply List.map_congr_left
  intro p _
  have hLq : ((lifespan : ℚ)) ≠ 0 := by
    exact_mod_cast Nat.pos_iff_ne_zero.mp hL
  have hd : daily_hours activity_inputs ≠ 0 := ne_of_gt hpos
  simp only [Function.comp_apply, total_hours]
  congr 1
  field_simp
  ring

theorem sum_map_div_mul (l : List ℚ) (d : ℚ) :
    (l.map (fun h => h / d * 100)).sum = l.sum / d * 100 := by
  induction l with
  | nil => simp
  | cons a t ih =>
    simp only [List.map_cons, List.sum_cons, ih]
    ring

/-! ### Claim theorems -/

/-- C1: the spec requires that an all-zero input (total 0) yield a defined
result with every percentage 0 and `remainingHours = 24`.  The code instead
enters the `daily_hours <= 24` branch and raises `ZeroDivisionError` at
line 111: the premise holds (`daily_hours = 0`, `remaining_hours = 24`) but
the run crashes rather than returning the all-zero breakdown. -/
theorem c1_zero_total_crashes :
    daily_hours zero_inputs = 0 ∧ remaining_hours zero_inputs = 24 ∧
    run 77 zero_inputs = BranchResult.crashed := by
  refine ⟨daily_hours_zero_inputs, ?_, ?_⟩
  · simp [remaining_hours, daily_hours, zero_inputs]
  · simp [run, sorted_activities, proportions, total_hours, daily_hours, zero_inputs]

/-- C2: the spec says the allocation computation always succeeds for any
non-negative inputs, including an all-zero sum.  On the all-zero input the
division of line 111 has denominator `total_hours = 0`, so the computation
does not produce a value (Python raises `ZeroDivisionError`). -/
theorem c2_zero_sum_no_value :
    proportions 77 zero_inputs = none ∧ sorted_activities 77 zero_inputs = none := by
  have h : proportions 77 zero_inputs = none := by
    simp [proportions, total_hours, daily_hours, zero_inputs]
  exact ⟨h, by simp [sorted_activities, h]⟩

/-- C3: the claim (and the line-4 comment of the source, "exactly 24
hours/day") assumes the DEFAULTS table sums to 24.  It actually sums to
23.75, so with `lifespan = 77` the code yields `daily_hours = 23.75`,
`remaining_hours = 0.25`, `free_years = 77/96 ≈ 0.8`, and Sleeping's
percentage is `680/19 ≈ 35.79`, not ≈ 35.42; only Sleeping's lifetime years
`1309/48 ≈ 27.27` matches the claim. -/
theorem c3_defaults_actual :
    daily_hours DEFAULTS_hours = 23.75 ∧
    remaining_hours DEFAULTS_hours = 0.25 ∧
    free_years DEFAULTS_lifespan DEFAULTS_hours = 77 / 96 ∧
    (proportions DEFAULTS_lifespan DEFAULTS_hours).map List.head? =
      some (some ("Sleeping", 680 / 19)) ∧
    (years_per_activity DEFAULTS_lifespan DEFAULTS_hours).head? =
      some ("Sleeping", 1309 / 48) ∧
    |(1309 / 48 : ℚ) - 27.27| < 5 / 1000 ∧
    ¬ |(680 / 19 : ℚ) - 35.42| < 5 / 1000 ∧
    ¬ daily_hours DEFAULTS_hours = 24 := by
  refine ⟨?_, ?_, ?_, ?_, ?_, ?_, ?_, ?_⟩
  · norm_num [daily_hours, DEFAULTS_hours]
  · norm_num [remaining_hours, daily_hours, DEFAULTS_hours]
  · norm_num [free_years, remaining_hours, daily_hours, DEFAULTS_hours, DEFAULTS_lifespan]
  · norm_num [proportions, total_hours, daily_hours, hours_per_activity, activities,
      categories, DEFAULTS_hours, DEFAULTS_lifespan]
  · norm_num [years_per_activity, hours_per_activity, activities, categories,
      DEFAULTS_hours, DEFAULTS_lifespan]
  · rw [abs_sub_lt_iff]; norm_num
  · rw [abs_sub_lt_iff]; norm_num
  · norm_num [daily_hours, DEFAULTS_hours]

/-- C4: whenever the daily total is in (0, 24] (and the lifespan is positive,
as the slider guarantees), line 111 produces percentages that sum to exactly
100 — in particular within the claimed 1e-6 tolerance. -/
theorem c4_percentages_sum_100 (lifespan : ℕ) (activity_inputs : List ℚ)
    (hlen : activity_inputs.length = 12) (hL : 0 < lifespan)
    (hpos : 0 < daily_hours activity_inputs) (hle : daily_hours activity_inputs ≤ 24) :
    ∃ props, proportions lifespan activity_inputs = some props ∧
      (props.map Prod.snd).sum = 100 := by
  refine ⟨_, proportions_canonical hL hpos, ?_⟩
  rw [List.map_map]
  have h1 : (Prod.snd ∘ fun p : String × ℚ =>
      (p.1, p.2 / daily_hours activity_inputs * 100)) =
      (fun p : String × ℚ => p.2 / daily_hours activity_inputs * 100) := rfl
  have h2 : (activities activity_inputs).map
      (fun p : String × ℚ => p.2 / daily_hours activity_inputs * 100) =
      ((activities activity_inputs).map Prod.snd).map
        (fun h => h / daily_hours activity_inputs * 100) := by
    rw [List.map_map]
    rfl
  rw [h1, h2, activities,
    List.map_snd_zip _ _ (le_of_eq (hlen.trans categories_length.symm)),
    sum_map_div_mul]
  show daily_hours activity_inputs / daily_hours activity_inputs * 100 = 100
  rw [div_self (ne_of_gt hpos), one_mul]

theorem c4_witness :
    ∃ props, proportions 77 DEFAULTS_hours = some props ∧
      (props.map Prod.snd).sum = 100 :=
  c4_percentages_sum_100 77 DEFAULTS_hours rfl (by norm_num)
    (by norm_num [daily_hours, DEFAULTS_hours]) (by norm_num [daily_hours, DEFAULTS_hours])

/-- C5: when the daily total exceeds 24, the guard of line 106 skips the
whole branch — no breakdown, chart, table or free-time section is produced —
and only the two placeholders of lines 100-103 display the daily total and
`24 - total`. -/
theorem c5_over_budget_suppresses (lifespan : ℕ) (activity_inputs : List ℚ)
    (h : 24 < daily_hours activity_inputs) :
    run lifespan activity_inputs = BranchResult.overBudget ∧
    shown_totals activity_inputs =
      (daily_hours activity_inputs, 24 - daily_hours activity_inputs) := by
  constructor
  · simp only [run, if_neg (not_le.mpr h)]
  · rfl

theorem c5_witness :
    run 77 over_inputs = BranchResult.overBudget ∧
    shown_totals over_inputs = (25, -1) := by
  have h : 24 < daily_hours over_inputs := by norm_num [daily_hours, over_inputs]
  have hmain := c5_over_budget_suppresses 77 over_inputs h
  refine ⟨hmain.1, ?_⟩
  rw [hmain.2]
  norm_num [daily_hours, over_inputs]

/-- C6: on every input where the breakdown is produced (daily total in
(0, 24], positive lifespan), the computed quantities satisfy the spec's
formulas: the daily total is the sum of the inputs, the remaining hours are
`24 − total`, and each activity with daily hours `hrs` gets lifetime hours
`hrs·365·lifespan`, lifetime years `lifetimeHours/(24·365)`, and percentage
`lifetimeHours / (total·365·lifespan) · 100`. -/
theorem c6_breakdown_formulas (lifespan : ℕ) (activity_inputs : List ℚ)
    (hL : 0 < lifespan) (hpos : 0 < daily_hours activity_inputs)
    (hle : daily_hours activity_inputs ≤ 24) :
    daily_hours activity_inputs = activity_inputs.sum ∧
    remaining_hours activity_inputs = 24 - daily_hours activity_inputs ∧
    ∃ props, proportions lifespan activity_inputs = some props ∧
      ∀ name hrs, (name, hrs) ∈ activities activity_inputs →
        (name, hrs * 365 * (lifespan : ℚ)) ∈ hours_per_activity lifespan activity_inputs ∧
        (name, hrs * 365 * (lifespan : ℚ) / (24 * 365)) ∈
          years_per_activity lifespan activity_inputs ∧
        (name, hrs * 365 * (lifespan : ℚ) /
          (daily_hours activity_inputs * 365 * (lifespan : ℚ)) * 100) ∈ props := by
  refine ⟨rfl, rfl, ?_⟩
  rw [proportions, if_neg (total_hours_ne_zero hL hpos)]
  refine ⟨_, rfl, ?_⟩
  intro name hrs hmem
  refine ⟨List.mem_map_of_mem _ hmem, ?_, ?_⟩
  · have heq : (name, hrs * 365 * (lifespan : ℚ) / (24 * 365)) =
        (name, hrs * 365 * (lifespan : ℚ) / 24 / 365) := by rw [div_div]
    rw [heq, years_per_activity]
    exact List.mem_map_of_mem _ (List.mem_map_of_mem _ hmem)
  · have heq : daily_hours activity_inputs * 365 * (lifespan : ℚ) =
        total_hours lifespan activity_inputs := rfl
    rw [heq]
    exact List.mem_map_of_mem _ (List.mem_map_of_mem _ hmem)

theorem c6_witness :
    ("Sleeping", (8.5 : ℚ) * 365 * ((77 : ℕ) : ℚ)) ∈
      hours_per_activity 77 DEFAULTS_hours := by
  obtain ⟨-, -, props, -, hall⟩ := c6_breakdown_formulas 77 DEFAULTS_hours (by norm_num)
    (by norm_num [daily_hours, DEFAULTS_hours]) (by norm_num [daily_hours, DEFAULTS_hours])
  exact (hall "Sleeping" 8.5
    (by simp [activities, categories, DEFAULTS_hours, List.zip_cons_cons])).1

/-- C7: for any produced breakdown, the sequence of line 114 is sorted
non-increasingly in the percentage, and activities with equal percentages keep
the catalog insertion order (Python's `sorted` is stable): for every
percentage value, the equal-percentage segment of the sorted list is exactly
the corresponding segment of the catalog-ordered `proportions` list. -/
theorem c7_sorted_stable (lifespan : ℕ) (activity_inputs : List ℚ)
    (props s : List (String × ℚ))
    (hp : proportions lifespan activity_inputs = some props)
    (hs : sorted_activities lifespan activity_inputs = some s) :
    s.Pairwise (fun a b => b.2 ≤ a.2) ∧
    ∀ q : ℚ, s.filter (fun p => decide (p.2 = q)) =
      props.filter (fun p => decide (p.2 = q)) := by
  simp only [sorted_activities, hp, Option.map_some', Option.some.injEq] at hs
  subst hs
  constructor
  · have hsorted : List.Pairwise descBySnd (List.insertionSort descBySnd props) :=
      List.sorted_insertionSort descBySnd props
    exact hsorted.imp (fun hab => hab)
  · intro q
    have hpw : (props.filter (fun p => decide (p.2 = q))).Pairwise descBySnd := by
      apply List.pairwise_of_forall_mem_list
      intro a ha b hb
      have ha2 : a.2 = q := of_decide_eq_true (List.mem_filter.mp ha).2
      have hb2 : b.2 = q := of_decide_eq_true (List.mem_filter.mp hb).2
      show b.2 ≤ a.2
      rw [ha2, hb2]
    have hsub : List.Sublist (props.filter (fun p => decide (p.2 = q)))
        (List.insertionSort descBySnd props) :=
      List.sublist_insertionSort hpw (List.filter_sublist _)
    have hself : (props.filter (fun p => decide (p.2 = q))).filter
        (fun p => decide (p.2 = q)) = props.filter (fun p => decide (p.2 = q)) :=
      List.filter_eq_self.mpr (fun a ha => (List.mem_filter.mp ha).2)
    have hsub2 := List.Sublist.filter (fun p => decide (p.2 = q)) hsub
    rw [hself] at hsub2
    have hperm : List.Perm (List.insertionSort descBySnd props) props :=
      List.perm_insertionSort descBySnd props
    have hlen : ((List.insertionSort descBySnd props).filter
        (fun p => decide (p.2 = q))).length =
        (props.filter (fun p => decide (p.2 = q))).length :=
      (hperm.filter _).length_eq
    exact (hsub2.eq_of_length hlen.symm).symm

/-- The exact `proportions` list at the DEFAULTS inputs with lifespan 77
(total 23.75 h/day), in catalog order. -/
def defaults_props : List (String × ℚ) :=
  [("Sleeping", 680/19), ("Working", 600/19), ("Commuting", 40/19),
   ("Household Chores", 120/19), ("Eating and Drinking", 120/19),
   ("Leisure", 160/19), ("Free SELF Time", 80/19), ("Caring for Others", 20/19),
   ("Education", 20/19), ("Religious and Civic Activities", 20/19),
   ("Shopping/Errands", 20/19), ("Miscellaneous Activities", 20/19)]

/-- The corresponding `sorted_activities` list: percentages descending, ties
in catalog order. -/
def defaults_sorted : List (String × ℚ) :=
  [("Sleeping", 680/19), ("Working", 600/19), ("Leisure", 160/19),
   ("Household Chores", 120/19), ("Eating and Drinking", 120/19),
   ("Free SELF Time", 80/19), ("Commuting", 40/19), ("Caring for Others", 20/19),
   ("Education", 20/19), ("Religious and Civic Activities", 20/19),
   ("Shopping/Errands", 20/19), ("Miscellaneous Activities", 20/19)]

theorem c7_witness :
    defaults_sorted.filter (fun p => decide (p.2 = 120/19)) =
      defaults_props.filter (fun p => decide (p.2 = 120/19)) := by
  have hp : proportions 77 DEFAULTS_hours = some defaults_props := by
    norm_num [proportions, total_hours, daily_hours, hours_per_activity, activities,
      categories, DEFAULTS_hours, defaults_props]
  have hs : sorted_activities 77 DEFAULTS_hours = some defaults_sorted := by
    simp only [sorted_activities, hp, Option.map_some', Option.some.injEq]
    norm_num [List.insertionSort, List.orderedInsert, descBySnd,
      defaults_props, defaults_sorted]
  exact (c7_sorted_stable 77 DEFAULTS_hours defaults_props defaults_sorted hp hs).2 (120/19)

/-- C8: the free-time figure of line 143 satisfies the spec formula
(`remainingHours · 365 · lifespan / 24 / 365 = remainingHours · lifespan / 24`),
but the claim's all-zero example never reaches line 143: the formula would
give 77 years for all-zero inputs and lifespan 77, while the script crashes at
line 111 before computing it. -/
theorem c8_free_years_formula_and_crash :
    (∀ (lifespan : ℕ) (activity_inputs : List ℚ),
        free_years lifespan activity_inputs =
          remaining_hours activity_inputs * (lifespan : ℚ) / 24) ∧
    free_years 77 zero_inputs = 77 ∧
    run 77 zero_inputs = BranchResult.crashed ∧
    ∀ v, ¬ run 77 zero_inputs = BranchResult.rendered v := by
  have hcrash : run 77 zero_inputs = BranchResult.crashed := by
    simp [run, sorted_activities, proportions, total_hours, daily_hours, zero_inputs]
  refine ⟨?_, ?_, hcrash, ?_⟩
  · intro lifespan activity_inputs
    simp only [free_years]
    ring
  · norm_num [free_years, remaining_hours, daily_hours, zero_inputs]
  · intro v hv
    rw [hcrash] at hv
    exact BranchResult.noConfusion hv

/-- C9: whenever the `daily_hours <= 24` branch is the one taken, the
remaining hours are non-negative, hence the free-time figure of line 143 is
non-negative as well — a negative free time is never rendered. -/
theorem c9_no_negative_free_time (lifespan : ℕ) (activity_inputs : List ℚ)
    (h : daily_hours activity_inputs ≤ 24) :
    0 ≤ remaining_hours activity_inputs ∧ 0 ≤ free_years lifespan activity_inputs ∧
    ∀ v, run lifespan activity_inputs = BranchResult.rendered v → 0 ≤ v.freeYears := by
  have hr : 0 ≤ remaining_hours activity_inputs := by
    simp only [remaining_hours]
    linarith
  have hf : 0 ≤ free_years lifespan activity_inputs := by
    simp only [free_years]
    have hcast : (0 : ℚ) ≤ (lifespan : ℚ) := Nat.cast_nonneg _
    positivity
  refine ⟨hr, hf, ?_⟩
  intro v hv
  cases hsa : sorted_activities lifespan activity_inputs with
  | none =>
      simp only [run, if_pos h, hsa] at hv
      exact BranchResult.noConfusion hv
  | some s =>
      simp only [run, if_pos h, hsa] at hv
      injection hv with h'
      rw [← h']
      exact hf

theorem c9_witness :
    0 ≤ remaining_hours zero_inputs ∧ 0 ≤ free_years 77 zero_inputs :=
  ⟨(c9_no_negative_free_time 77 zero_inputs
      (by norm_num [daily_hours, zero_inputs])).1,
   (c9_no_negative_free_time 77 zero_inputs
      (by norm_num [daily_hours, zero_inputs])).2.1⟩

/-- C10: percentages, and hence the sorted breakdown, do not depend on the
lifespan: the `365 · lifespan` factors of line 111 cancel, so two runs with
the same activity inputs and any two positive lifespans produce identical
`proportions` and `sorted_activities`. -/
theorem c10_lifespan_independent (L1 L2 : ℕ) (activity_inputs : List ℚ)
    (h1 : 0 < L1) (h2 : 0 < L2)
    (hpos : 0 < daily_hours activity_inputs) (hle : daily_hours activity_inputs ≤ 24) :
    proportions L1 activity_inputs = proportions L2 activity_inputs ∧
    sorted_activities L1 activity_inputs = sorted_activities L2 activity_inputs := by
  have hp : proportions L1 activity_inputs = proportions L2 activity_inputs := by
    rw [proportions_canonical h1 hpos, proportions_canonical h2 hpos]
  exact ⟨hp, by simp only [sorted_activities, hp]⟩

theorem c10_witness :
    proportions 50 DEFAULTS_hours = proportions 100 DEFAULTS_hours ∧
    sorted_activities 50 DEFAULTS_hours = sorted_activities 100 DEFAULTS_hours :=
  c10_lifespan_independent 50 100 DEFAULTS_hours (by norm_num) (by norm_num)
    (by norm_num [daily_hours, DEFAULTS_hours]) (by norm_num [daily_hours, DEFAULTS_hours])

end LifeAnalysis
